import Mathlib

set_option linter.unusedSectionVars false

/-!
Verification development for the bevy base render graph assembler
(`crates/bevy_render/src/base_render_graph/mod.rs`) against the render-graph
specification.

The assembler (`add_base_graph`, `BaseRenderGraphConfig`, the name constants)
is embedded directly from the Rust source.  The graph store (`RenderGraph`,
`add_node`, `add_node_edge`, `add_slot_edge`) is not part of the provided
source tree, so it is modelled from the specification (sections 3, 4.1, 4.2,
7, 9); each such definition carries a doc comment saying so.
-/

/-- Kind tag of a slot, used for compatibility checks (spec section 3,
"DataKind ... e.g., texture vs. buffer"). -/
inductive DataKind
  | texture
  | buffer
  | sampler
  deriving DecidableEq

/-- A named, typed port on a node (spec section 3, "Slot Descriptor"). -/
structure SlotDescriptor where
  name : String
  kind : DataKind
  deriving DecidableEq

/-- `bevy_window::WindowReference`; the assembler only uses `Primary`. -/
inductive WindowReference
  | primary
  deriving DecidableEq

inductive TextureDimension
  | d1
  | d2
  | d3
  deriving DecidableEq

inductive TextureFormat
  | depth32Float
  | bgra8UnormSrgb
  deriving DecidableEq

/-- Texture usage flags; the assembler only uses `OUTPUT_ATTACHMENT`. -/
inductive TextureUsage
  | outputAttachment
  deriving DecidableEq

structure Extent3d where
  width : Nat
  height : Nat
  depth : Nat
  deriving DecidableEq

structure TextureDescriptor where
  size : Extent3d
  mip_level_count : Nat
  sample_count : Nat
  dimension : TextureDimension
  format : TextureFormat
  usage : TextureUsage
  deriving DecidableEq

/-- A float literal, kept as its decimal scientific notation.  The model
never computes with floats; it only stores and compares the source's
literals, so this structural representation is exact. -/
structure F32 where
  mantissa : Nat
  exponentNegative : Bool
  decimalExponent : Nat
  deriving DecidableEq

instance : OfScientific F32 where
  ofScientific m s e := { mantissa := m, exponentNegative := s, decimalExponent := e }

/-- `Color` with the source's literal float components. -/
structure Color where
  r : F32
  g : F32
  b : F32
  a : F32
  deriving DecidableEq

/-- `Color::rgb` sets alpha to 1.0. -/
def Color.rgb (r g b : F32) : Color := ⟨r, g, b, 1.0⟩

inductive LoadOp (α : Type) where
  | clear (value : α)
  | load
  deriving DecidableEq

structure Operations (α : Type) where
  load : LoadOp α
  store : Bool
  deriving DecidableEq

inductive TextureAttachment
  | input (name : String)
  deriving DecidableEq

structure RenderPassColorAttachmentDescriptor where
  attachment : TextureAttachment
  resolve_target : Option TextureAttachment
  ops : Operations Color
  deriving DecidableEq

structure RenderPassDepthStencilAttachmentDescriptor where
  attachment : TextureAttachment
  depth_ops : Option (Operations F32)
  stencil_ops : Option (Operations Nat)
  deriving DecidableEq

structure PassDescriptor where
  color_attachments : List RenderPassColorAttachmentDescriptor
  depth_stencil_attachment : Option RenderPassDepthStencilAttachmentDescriptor
  sample_count : Nat
  deriving DecidableEq

/-- The mutable state a `PassNode` accumulates before being registered:
its pass descriptor, the cameras added with `add_camera`, and the color
attachment indices marked by `use_default_clear_color`. -/
structure PassNodeState where
  descriptor : PassDescriptor
  cameras : List String
  defaultClearColorInputs : List Nat
  deriving DecidableEq

/-- The node values the assembler registers.  Each constructor corresponds to
one node type named in the source's imports. -/
inductive RenderNode
  | textureCopy
  | camera (cameraName : String)
  | sharedBuffers
  | windowTexture (window : WindowReference) (descriptor : TextureDescriptor)
  | windowSwapChain (window : WindowReference)
  | passNode (state : PassNodeState)
  deriving DecidableEq

def TextureCopyNode.default : RenderNode := RenderNode.textureCopy

def CameraNode.new (cameraName : String) : RenderNode := RenderNode.camera cameraName

def SharedBuffersNode.default : RenderNode := RenderNode.sharedBuffers

def WindowTextureNode.new (window : WindowReference) (descriptor : TextureDescriptor) :
    RenderNode :=
  RenderNode.windowTexture window descriptor

/-- Modelled from the spec: the fixed name of the window texture node's single
output slot (spec section 6, well-known slot names; scenario 1 names the
swap-chain's output slot "texture", and the window texture node follows the
same convention). -/
def WindowTextureNode.OUT_TEXTURE : String := "texture"

def WindowSwapChainNode.new (window : WindowReference) : RenderNode :=
  RenderNode.windowSwapChain window

/-- Modelled from the spec: the swap-chain node's single output slot name
(spec section 8, end-to-end scenario 1: `"swapchain"` has one output
`"texture"`). -/
def WindowSwapChainNode.OUT_TEXTURE : String := "texture"

def PassNode.new (descriptor : PassDescriptor) : PassNodeState :=
  { descriptor := descriptor, cameras := [], defaultClearColorInputs := [] }

def PassNode.add_camera (st : PassNodeState) (cameraName : String) : PassNodeState :=
  { st with cameras := st.cameras ++ [cameraName] }

def PassNode.use_default_clear_color (st : PassNodeState) (colorAttachmentIndex : Nat) :
    PassNodeState :=
  { st with defaultClearColorInputs := st.defaultClearColorInputs ++ [colorAttachmentIndex] }

/-- Modelled from the spec: each node exposes "a fixed, queryable list of
input slot descriptors" (spec sections 2 and 6).  A pass node declares one
texture input per `TextureAttachment::Input` name appearing in its color
attachments, then in its depth-stencil attachment; the other node types have
no inputs. -/
def nodeInputs : RenderNode → List SlotDescriptor
  | RenderNode.passNode st =>
      (st.descriptor.color_attachments.map fun c =>
        match c.attachment with
        | TextureAttachment.input n => { name := n, kind := DataKind.texture }) ++
      (match st.descriptor.depth_stencil_attachment with
       | some d =>
          match d.attachment with
          | TextureAttachment.input n => [{ name := n, kind := DataKind.texture }]
       | none => [])
  | _ => []

/-- Modelled from the spec: output slot descriptor lists.  The window texture
node and the swap-chain node each expose a single "texture" output (spec
section 8, scenario 1); the remaining node types have no outputs. -/
def nodeOutputs : RenderNode → List SlotDescriptor
  | RenderNode.windowTexture _ _ =>
      [{ name := WindowTextureNode.OUT_TEXTURE, kind := DataKind.texture }]
  | RenderNode.windowSwapChain _ =>
      [{ name := WindowSwapChainNode.OUT_TEXTURE, kind := DataKind.texture }]
  | _ => []

/-- Modelled from the spec: the error taxonomy of section 7, with payloads
naming the offending node/slot pair. -/
inductive GraphError
  | DuplicateNodeName (name : String)
  | NodeNotFound (name : String)
  | SlotNotFound (node slot : String)
  | SlotKindMismatch (sourceNode sourceSlot targetNode targetSlot : String)
  | SlotAlreadyBound (node slot : String)
  | EdgeAlreadyExists (source target : String)
  | WouldCreateCycle (source target : String)
  deriving DecidableEq

/-- A data-carrying edge (spec section 3, "Slot Edge"). -/
structure SlotEdgeRec where
  sourceNode : String
  sourceSlot : String
  targetNode : String
  targetSlot : String
  deriving DecidableEq

/-- Modelled from the spec: the Graph Store (spec sections 3 and 4.1) —
node entries in registration order, explicit node edges in registration
order, and slot edges in registration order.  Node edges induced by slot
edges are not stored twice; they are derived by `edgePairs`. -/
structure RenderGraph where
  nodes : List (String × RenderNode)
  nodeEdges : List (String × String)
  slotEdges : List SlotEdgeRec
  deriving DecidableEq

def RenderGraph.empty : RenderGraph := { nodes := [], nodeEdges := [], slotEdges := [] }

/-- Modelled from the spec: name-keyed node lookup (spec section 4.1,
`get_node`). -/
def get_node (g : RenderGraph) (name : String) : Option RenderNode :=
  (g.nodes.find? fun p => decide (p.1 = name)).map Prod.snd

def hasNode (g : RenderGraph) (name : String) : Bool :=
  (get_node g name).isSome

/-- The ordering relation as edge pairs: explicit node edges together with
the node edges induced by slot edges (spec section 3, a slot edge "implies a
node edge between the same two nodes"). -/
def edgePairs (g : RenderGraph) : List (String × String) :=
  g.nodeEdges ++ g.slotEdges.map fun e => (e.sourceNode, e.targetNode)

/-- Look up a slot descriptor by name in a slot list (spec section 4.2,
slot resolution). -/
def findSlot (slots : List SlotDescriptor) (name : String) : Option SlotDescriptor :=
  slots.find? fun s => decide (s.name = name)

section Reachability

variable {α : Type} [DecidableEq α]

/-- One step of the reachable-set saturation: add every target of an edge
whose source is already in the set (spec section 4.2, cycle check by
reachability with a visited set). -/
def reachStep (es : List (α × α)) (s : Finset α) : Finset α :=
  s ∪ ((es.filter fun p => decide (p.1 ∈ s)).map Prod.snd).toFinset

def reachIter (es : List (α × α)) : Nat → Finset α → Finset α
  | 0, s => s
  | Nat.succ n, s => reachStep es (reachIter es n s)

/-- All nodes that can ever enter the reachable set started from `a`. -/
def reachUniv (es : List (α × α)) (a : α) : Finset α :=
  insert a (es.map Prod.snd).toFinset

/-- The set of nodes reachable from `a` along `es`, computed by saturating
for `card (reachUniv es a)` rounds (enough to reach the fixed point). -/
def reachSet (es : List (α × α)) (a : α) : Finset α :=
  reachIter es (reachUniv es a).card {a}

/-- Modelled from the spec: the decidable reachability test used by the cycle
check (spec section 4.2). -/
def reachableB (es : List (α × α)) (a b : α) : Bool :=
  decide (b ∈ reachSet es a)

end Reachability

/-- Modelled from the spec: `add_node` (spec section 4.1) — fails with
`DuplicateNodeName` if the name already exists, otherwise appends the entry;
no implicit edges are created. -/
def add_node (g : RenderGraph) (name : String) (n : RenderNode) :
    Except GraphError RenderGraph :=
  if hasNode g name then Except.error (GraphError.DuplicateNodeName name)
  else Except.ok { g with nodes := g.nodes ++ [(name, n)] }

/-- Modelled from the spec: `add_system_node` registers a system node; at the
graph-store level it behaves as `add_node` (the system wrapper is outside the
graph structure). -/
def add_system_node (g : RenderGraph) (name : String) (n : RenderNode) :
    Except GraphError RenderGraph :=
  add_node g name n

/-- Modelled from the spec: `add_node_edge` (spec sections 4.1, 4.2, 9) —
`NodeNotFound` for a missing endpoint, `EdgeAlreadyExists` for an identical
explicit edge, a silent no-op when the same ordering is already induced by a
slot edge (the idempotent reading adopted in spec section 9), and
`WouldCreateCycle` when the target already reaches the source; all checks run
before the mutation. -/
def add_node_edge (g : RenderGraph) (source target : String) :
    Except GraphError RenderGraph :=
  if hasNode g source = false then Except.error (GraphError.NodeNotFound source)
  else if hasNode g target = false then Except.error (GraphError.NodeNotFound target)
  else if (source, target) ∈ g.nodeEdges then
    Except.error (GraphError.EdgeAlreadyExists source target)
  else if (source, target) ∈ g.slotEdges.map (fun e => (e.sourceNode, e.targetNode)) then
    Except.ok g
  else if reachableB (edgePairs g) target source then
    Except.error (GraphError.WouldCreateCycle source target)
  else Except.ok { g with nodeEdges := g.nodeEdges ++ [(source, target)] }

/-- Modelled from the spec: `add_slot_edge` (spec sections 4.1, 4.2, 8) —
resolves the target node and its input slot, rejects an already bound input
with `SlotAlreadyBound` "regardless of which source it names" (spec section
8, so the binding check precedes source resolution), then resolves the
source node and output slot, checks kind compatibility and acyclicity, and
finally records the slot edge; the induced ordering is derived, not stored
twice. -/
def add_slot_edge (g : RenderGraph) (source sourceSlot target targetSlot : String) :
    Except GraphError RenderGraph :=
  match get_node g target with
  | none => Except.error (GraphError.NodeNotFound target)
  | some targetNode =>
    match findSlot (nodeInputs targetNode) targetSlot with
    | none => Except.error (GraphError.SlotNotFound target targetSlot)
    | some tslot =>
      if g.slotEdges.any fun e => decide (e.targetNode = target) && decide (e.targetSlot = targetSlot) then
        Except.error (GraphError.SlotAlreadyBound target targetSlot)
      else
        match get_node g source with
        | none => Except.error (GraphError.NodeNotFound source)
        | some sourceNode =>
          match findSlot (nodeOutputs sourceNode) sourceSlot with
          | none => Except.error (GraphError.SlotNotFound source sourceSlot)
          | some sslot =>
            if sslot.kind ≠ tslot.kind then
              Except.error (GraphError.SlotKindMismatch source sourceSlot target targetSlot)
            else if reachableB (edgePairs g) target source then
              Except.error (GraphError.WouldCreateCycle source target)
            else
              Except.ok { g with slotEdges :=
                g.slotEdges ++ [{ sourceNode := source, sourceSlot := sourceSlot,
                                  targetNode := target, targetSlot := targetSlot }] }

/-- `BaseRenderGraphConfig` (source lines 18-25), field order as declared. -/
structure BaseRenderGraphConfig where
  add_2d_camera : Bool
  add_3d_camera : Bool
  add_main_depth_texture : Bool
  add_main_pass : Bool
  connect_main_pass_to_swapchain : Bool
  connect_main_pass_to_main_depth_texture : Bool
  deriving DecidableEq

/-- `impl Default for BaseRenderGraphConfig` (source lines 42-53). -/
def BaseRenderGraphConfig.default : BaseRenderGraphConfig :=
  { add_2d_camera := true
    add_3d_camera := true
    add_main_pass := true
    add_main_depth_texture := true
    connect_main_pass_to_swapchain := true
    connect_main_pass_to_main_depth_texture := true }

/-- Well-known node names (source module `node`, lines 27-35). -/
def node.PRIMARY_SWAP_CHAIN : String := "swapchain"

def node.CAMERA3D : String := "camera3d"

def node.CAMERA2D : String := "camera2d"

def node.TEXTURE_COPY : String := "texture_copy"

def node.MAIN_DEPTH_TEXTURE : String := "main_pass_depth_texture"

def node.MAIN_PASS : String := "main_pass"

def node.SHARED_BUFFERS : String := "shared_buffers"

/-- Well-known camera names (source module `camera`, lines 37-40). -/
def camera.CAMERA3D : String := "Camera3d"

def camera.CAMERA2D : String := "Camera2d"

/-- One graph-store call issued by the assembler. -/
inductive GraphOp
  | addNode (name : String) (n : RenderNode)
  | addNodeEdge (source target : String)
  | addSlotEdge (source sourceSlot target targetSlot : String)
  deriving DecidableEq

/-- `addNodeEdge` and `addSlotEdge` are the calls whose `Result` the source
unwraps; `addNode` results are discarded. -/
def GraphOp.isEdgeOp : GraphOp → Bool
  | GraphOp.addNode _ _ => false
  | GraphOp.addNodeEdge _ _ => true
  | GraphOp.addSlotEdge _ _ _ _ => true

def applyOp : GraphOp → RenderGraph → Except GraphError RenderGraph
  | GraphOp.addNode name n, g => add_node g name n
  | GraphOp.addNodeEdge s t, g => add_node_edge g s t
  | GraphOp.addSlotEdge s ss t ts, g => add_slot_edge g s ss t ts

/-- Run a call sequence the way the assembler's Rust body does: each call
mutates the graph in place on success; the result of an `add_node` call is
dropped on the floor (the source discards it), while a failing
`add_node_edge`/`add_slot_edge` call hits `.unwrap()` — modelled as stopping
with that error and the graph as mutated so far. -/
def runOps : List GraphOp → RenderGraph → RenderGraph × Option GraphError
  | [], g => (g, none)
  | op :: rest, g =>
    match applyOp op g with
    | Except.ok g' => runOps rest g'
    | Except.error e =>
      match op with
      | GraphOp.addNode _ _ => runOps rest g
      | _ => (g, some e)

/-- The `TextureDescriptor` for the main depth texture (source lines 78-89). -/
def mainDepthDescriptor : TextureDescriptor :=
  { size := { depth := 1, width := 1, height := 1 }
    mip_level_count := 1
    sample_count := 1
    dimension := TextureDimension.d2
    format := TextureFormat.depth32Float
    usage := TextureUsage.outputAttachment }

/-- The main pass node value as the source builds it (lines 95-123):
`PassNode::new` on the literal descriptor, then `use_default_clear_color(0)`,
then the cameras gated by the two camera switches. -/
def mkMainPassNode (add3d add2d : Bool) : PassNodeState :=
  let main_pass_node := PassNode.new
    { color_attachments :=
        [{ attachment := TextureAttachment.input "color"
           resolve_target := none
           ops := { load := LoadOp.clear (Color.rgb 0.1 0.1 0.1), store := true } }]
      depth_stencil_attachment :=
        some { attachment := TextureAttachment.input "depth"
               depth_ops := some { load := LoadOp.clear 1.0, store := true }
               stencil_ops := none }
      sample_count := 1 }
  let main_pass_node := PassNode.use_default_clear_color main_pass_node 0
  let main_pass_node :=
    if add3d then PassNode.add_camera main_pass_node camera.CAMERA3D else main_pass_node
  let main_pass_node :=
    if add2d then PassNode.add_camera main_pass_node camera.CAMERA2D else main_pass_node
  main_pass_node

/-- The sequence of graph-store calls `add_base_graph` issues, in source
order (lines 62-167): texture copy, the two optional cameras, shared
buffers, the optional depth texture, the optional main pass block (node plus
its ordering edges, the camera edges nested under their switches), the swap
chain, and the two optional slot-edge connections. -/
def baseGraphOps (config : BaseRenderGraphConfig) : List GraphOp :=
  [GraphOp.addNode node.TEXTURE_COPY TextureCopyNode.default] ++
  (if config.add_3d_camera then
    [GraphOp.addNode node.CAMERA3D (CameraNode.new camera.CAMERA3D)] else []) ++
  (if config.add_2d_camera then
    [GraphOp.addNode node.CAMERA2D (CameraNode.new camera.CAMERA2D)] else []) ++
  [GraphOp.addNode node.SHARED_BUFFERS SharedBuffersNode.default] ++
  (if config.add_main_depth_texture then
    [GraphOp.addNode node.MAIN_DEPTH_TEXTURE
      (WindowTextureNode.new WindowReference.primary mainDepthDescriptor)] else []) ++
  (if config.add_main_pass then
    [GraphOp.addNode node.MAIN_PASS
       (RenderNode.passNode (mkMainPassNode config.add_3d_camera config.add_2d_camera)),
     GraphOp.addNodeEdge node.TEXTURE_COPY node.MAIN_PASS,
     GraphOp.addNodeEdge node.SHARED_BUFFERS node.MAIN_PASS] ++
    (if config.add_3d_camera then
      [GraphOp.addNodeEdge node.CAMERA3D node.MAIN_PASS] else []) ++
    (if config.add_2d_camera then
      [GraphOp.addNodeEdge node.CAMERA2D node.MAIN_PASS] else [])
   else []) ++
  [GraphOp.addNode node.PRIMARY_SWAP_CHAIN
    (WindowSwapChainNode.new WindowReference.primary)] ++
  (if config.connect_main_pass_to_swapchain then
    [GraphOp.addSlotEdge node.PRIMARY_SWAP_CHAIN WindowSwapChainNode.OUT_TEXTURE
      node.MAIN_PASS "color"] else []) ++
  (if config.connect_main_pass_to_main_depth_texture then
    [GraphOp.addSlotEdge node.MAIN_DEPTH_TEXTURE WindowTextureNode.OUT_TEXTURE
      node.MAIN_PASS "depth"] else [])

/-- `BaseRenderGraphBuilder::add_base_graph` (source lines 62-170), as the
run of its call sequence: the final graph state together with the error of
the first failing unwrapped call, if any. -/
def add_base_graph (config : BaseRenderGraphConfig) (g : RenderGraph) :
    RenderGraph × Option GraphError :=
  runOps (baseGraphOps config) g

/-- The explicit node-edge predecessors of `n`, in registration order. -/
def explicitPreds (g : RenderGraph) (n : String) : List String :=
  (g.nodeEdges.filter fun p => decide (p.2 = n)).map Prod.fst

/-- The incoming slot edges of `n`, in registration order. -/
def incomingSlotEdges (g : RenderGraph) (n : String) : List SlotEdgeRec :=
  g.slotEdges.filter fun e => decide (e.targetNode = n)

/-- The camera list of the pass node stored under a name, when one is. -/
def passCameras : RenderNode → Option (List String)
  | RenderNode.passNode st => some st.cameras
  | _ => none

/-- The pass descriptor and default-clear-color indices of a stored pass
node, when one is. -/
def passState : RenderNode → Option (PassDescriptor × List Nat)
  | RenderNode.passNode st => some (st.descriptor, st.defaultClearColorInputs)
  | _ => none

/-- The individual calls of `add_base_graph`, named for structural analysis
of the call sequence. -/
def tcOp : GraphOp := GraphOp.addNode node.TEXTURE_COPY TextureCopyNode.default

def cam3Op : GraphOp := GraphOp.addNode node.CAMERA3D (CameraNode.new camera.CAMERA3D)

def cam2Op : GraphOp := GraphOp.addNode node.CAMERA2D (CameraNode.new camera.CAMERA2D)

def sbOp : GraphOp := GraphOp.addNode node.SHARED_BUFFERS SharedBuffersNode.default

def mdtOp : GraphOp :=
  GraphOp.addNode node.MAIN_DEPTH_TEXTURE
    (WindowTextureNode.new WindowReference.primary mainDepthDescriptor)

def mpOp (add3d add2d : Bool) : GraphOp :=
  GraphOp.addNode node.MAIN_PASS (RenderNode.passNode (mkMainPassNode add3d add2d))

def eTcMp : GraphOp := GraphOp.addNodeEdge node.TEXTURE_COPY node.MAIN_PASS

def eSbMp : GraphOp := GraphOp.addNodeEdge node.SHARED_BUFFERS node.MAIN_PASS

def eC3Mp : GraphOp := GraphOp.addNodeEdge node.CAMERA3D node.MAIN_PASS

def eC2Mp : GraphOp := GraphOp.addNodeEdge node.CAMERA2D node.MAIN_PASS

def scOp : GraphOp :=
  GraphOp.addNode node.PRIMARY_SWAP_CHAIN (WindowSwapChainNode.new WindowReference.primary)

def slotColorOp : GraphOp :=
  GraphOp.addSlotEdge node.PRIMARY_SWAP_CHAIN WindowSwapChainNode.OUT_TEXTURE
    node.MAIN_PASS "color"

def slotDepthOp : GraphOp :=
  GraphOp.addSlotEdge node.MAIN_DEPTH_TEXTURE WindowTextureNode.OUT_TEXTURE
    node.MAIN_PASS "depth"

/-- Switch updaters, one per field of `BaseRenderGraphConfig`. -/
def setAdd2dCamera (cfg : BaseRenderGraphConfig) (b : Bool) : BaseRenderGraphConfig :=
  { cfg with add_2d_camera := b }

def setAdd3dCamera (cfg : BaseRenderGraphConfig) (b : Bool) : BaseRenderGraphConfig :=
  { cfg with add_3d_camera := b }

def setAddMainDepthTexture (cfg : BaseRenderGraphConfig) (b : Bool) : BaseRenderGraphConfig :=
  { cfg with add_main_depth_texture := b }

def setAddMainPass (cfg : BaseRenderGraphConfig) (b : Bool) : BaseRenderGraphConfig :=
  { cfg with add_main_pass := b }

def setConnectSwapchain (cfg : BaseRenderGraphConfig) (b : Bool) : BaseRenderGraphConfig :=
  { cfg with connect_main_pass_to_swapchain := b }

def setConnectDepth (cfg : BaseRenderGraphConfig) (b : Bool) : BaseRenderGraphConfig :=
  { cfg with connect_main_pass_to_main_depth_texture := b }

/-- Formalization of "this switch gates a single contiguous block of
graph-store calls, independently of the other switches": one fixed block is
inserted at one position when the switch is on and absent when it is off,
and the surrounding call sequence does not depend on the switch. -/
def gatesIndependentBlock (upd : BaseRenderGraphConfig → Bool → BaseRenderGraphConfig) :
    Prop :=
  ∃ block : List GraphOp, ∀ cfg : BaseRenderGraphConfig, ∃ pre post : List GraphOp,
    baseGraphOps (upd cfg true) = pre ++ block ++ post ∧
    baseGraphOps (upd cfg false) = pre ++ post

/-- The main-pass block of calls; its content depends on the two camera
switches (the pass-node payload and the camera ordering edges). -/
def mainPassBlock (add3d add2d : Bool) : List GraphOp :=
  [mpOp add3d add2d, eTcMp, eSbMp] ++
  (if add3d then [eC3Mp] else []) ++ (if add2d then [eC2Mp] else [])

/-- The calls between the 3d-camera registration and the 3d-camera edge,
as a function of the other switches and of the 3d-camera switch itself
(which alters the main-pass node payload). -/
def seg3dMid (add2d dt mp add3d : Bool) : List GraphOp :=
  (if add2d then [cam2Op] else []) ++ [sbOp] ++ (if dt then [mdtOp] else []) ++
  (if mp then [mpOp add3d add2d, eTcMp, eSbMp] else [])

/-- The calls after the optional 3d-camera edge. -/
def seg3dTail (add2d mp cs cd : Bool) : List GraphOp :=
  (if mp && add2d then [eC2Mp] else []) ++ [scOp] ++
  (if cs then [slotColorOp] else []) ++ (if cd then [slotDepthOp] else [])

/-- The calls before the 2d-camera registration. -/
def seg2dPre (add3d : Bool) : List GraphOp :=
  [tcOp] ++ (if add3d then [cam3Op] else [])

/-- The calls between the 2d-camera registration and the 2d-camera edge. -/
def seg2dMid (add3d dt mp add2d : Bool) : List GraphOp :=
  [sbOp] ++ (if dt then [mdtOp] else []) ++
  (if mp then [mpOp add3d add2d, eTcMp, eSbMp] ++ (if add3d then [eC3Mp] else []) else [])

/-- The calls after the optional 2d-camera edge. -/
def seg2dTail (cs cd : Bool) : List GraphOp :=
  [scOp] ++ (if cs then [slotColorOp] else []) ++ (if cd then [slotDepthOp] else [])

/-- A graph that already contains a node named `texture_copy`, used to
exhibit the discarded result of the assembler's first `add_node` call. -/
def preAddedGraph : RenderGraph :=
  { nodes := [(node.TEXTURE_COPY, TextureCopyNode.default)], nodeEdges := [], slotEdges := [] }

/-- The two-node graph of spec scenario 1: a swap chain and a main pass. -/
def scenario1Graph : RenderGraph :=
  { nodes := [(node.PRIMARY_SWAP_CHAIN, WindowSwapChainNode.new WindowReference.primary),
              (node.MAIN_PASS, RenderNode.passNode (mkMainPassNode false false))]
    nodeEdges := []
    slotEdges := [] }

/-- `scenario1Graph` after binding the main pass color input to the swap
chain's texture output. -/
def scenario1Bound : RenderGraph :=
  { scenario1Graph with slotEdges :=
      [{ sourceNode := node.PRIMARY_SWAP_CHAIN, sourceSlot := WindowSwapChainNode.OUT_TEXTURE,
         targetNode := node.MAIN_PASS, targetSlot := "color" }] }

/-- The three-node chain graph of spec scenario 3. -/
def chainGraphABC : RenderGraph :=
  { nodes := [("a", RenderNode.textureCopy), ("b", RenderNode.textureCopy),
              ("c", RenderNode.textureCopy)]
    nodeEdges := [("a", "b"), ("b", "c")]
    slotEdges := [] }

/-- The pass descriptor the main pass is expected to carry: one color
attachment reading input "color", cleared to rgb(0.1, 0.1, 0.1) and stored;
a depth attachment reading input "depth", cleared to 1.0 and stored, no
stencil operations; sample count 1. -/
def expectedMainPassDescriptor : PassDescriptor :=
  { color_attachments :=
      [{ attachment := TextureAttachment.input "color"
         resolve_target := none
         ops := { load := LoadOp.clear (Color.rgb 0.1 0.1 0.1), store := true } }]
    depth_stencil_attachment :=
      some { attachment := TextureAttachment.input "depth"
             depth_ops := some { load := LoadOp.clear 1.0, store := true }
             stencil_ops := none }
    sample_count := 1 }

section GraphRelations

variable {α : Type} [DecidableEq α]

/-- The ordering relation induced by a list of edge pairs. -/
def EdgeRel (es : List (α × α)) (x y : α) : Prop := (x, y) ∈ es

/-- Acyclicity of an edge-pair list: no node lies on a nonempty directed
cycle (spec section 3, Graph invariant). -/
def AcyclicL (es : List (α × α)) : Prop :=
  ∀ x, ¬ Relation.TransGen (EdgeRel es) x x

/-- A decidable acyclicity check: no edge closes a path back to its source. -/
def checkAcyclicB (es : List (α × α)) : Bool :=
  es.all fun p => !(reachableB es p.2 p.1)

end GraphRelations

section ReachabilityLemmas

variable {α : Type} [DecidableEq α]

theorem mem_reachStep {es : List (α × α)} {s : Finset α} {x : α} :
    x ∈ reachStep es s ↔ x ∈ s ∨ ∃ p ∈ es, p.1 ∈ s ∧ p.2 = x := by
  unfold reachStep
  rw [Finset.mem_union, List.mem_toFinset]
  constructor
  · rintro (hx | hx)
    · exact Or.inl hx
    · rcases List.mem_map.1 hx with ⟨p, hp, rfl⟩
      rcases List.mem_filter.1 hp with ⟨hpe, hps⟩
      exact Or.inr ⟨p, hpe, of_decide_eq_true hps, rfl⟩
  · rintro (hx | ⟨p, hpe, hps, rfl⟩)
    · exact Or.inl hx
    · exact Or.inr (List.mem_map_of_mem Prod.snd
        (List.mem_filter.2 ⟨hpe, decide_eq_true hps⟩))

theorem subset_reachStep (es : List (α × α)) (s : Finset α) : s ⊆ reachStep es s :=
  Finset.subset_union_left

theorem reachStep_subset_univ {es : List (α × α)} {a : α} {s : Finset α}
    (hs : s ⊆ reachUniv es a) : reachStep es s ⊆ reachUniv es a := by
  intro x hx
  rcases mem_reachStep.1 hx with hx | ⟨p, hp, _, rfl⟩
  · exact hs hx
  · exact Finset.mem_insert_of_mem (List.mem_toFinset.2 (List.mem_map_of_mem Prod.snd hp))

theorem subset_reachIter (es : List (α × α)) (n : Nat) (s : Finset α) :
    s ⊆ reachIter es n s := by
  induction n with
  | zero => exact le_refl s
  | succ n ih => exact ih.trans (subset_reachStep es (reachIter es n s))

theorem reachIter_subset_univ {es : List (α × α)} {a : α} {s : Finset α}
    (hs : s ⊆ reachUniv es a) (n : Nat) : reachIter es n s ⊆ reachUniv es a := by
  induction n with
  | zero => exact hs
  | succ n ih => exact reachStep_subset_univ ih

theorem reachIter_stab {es : List (α × α)} {s : Finset α} {k : Nat}
    (h : reachStep es (reachIter es k s) = reachIter es k s) (m : Nat) :
    reachIter es (k + m) s = reachIter es k s := by
  induction m with
  | zero => rfl
  | succ m ih => show reachStep es (reachIter es (k + m) s) = _; rw [ih, h]

theorem reachIter_growth {es : List (α × α)} {s : Finset α} :
    ∀ n : Nat, (∀ k, k < n → reachStep es (reachIter es k s) ≠ reachIter es k s) →
      n + s.card ≤ (reachIter es n s).card := by
  intro n
  induction n with
  | zero =>
    intro _
    show 0 + s.card ≤ s.card
    omega
  | succ n ih =>
    intro h
    have hlt : (reachIter es n s).card < (reachIter es (n + 1) s).card := by
      apply Finset.card_lt_card
      refine HasSubset.Subset.ssubset_of_ne (subset_reachStep es (reachIter es n s)) ?_
      intro heq
      exact h n (Nat.lt_succ_self n) heq.symm
    have := ih fun k hk => h k (Nat.lt_succ_of_lt hk)
    omega

theorem reachStep_reachSet (es : List (α × α)) (a : α) :
    reachStep es (reachSet es a) = reachSet es a := by
  have hsingle : ({a} : Finset α) ⊆ reachUniv es a := by
    intro x hx
    rw [Finset.mem_singleton] at hx
    subst hx
    exact Finset.mem_insert_self x _
  by_contra hne
  have hall : ∀ k, k < (reachUniv es a).card + 1 →
      reachStep es (reachIter es k {a}) ≠ reachIter es k {a} := by
    intro k hk heq
    have hm := reachIter_stab heq ((reachUniv es a).card - k)
    have hkN : k + ((reachUniv es a).card - k) = (reachUniv es a).card := by omega
    rw [hkN] at hm
    apply hne
    show reachStep es (reachIter es (reachUniv es a).card {a}) =
      reachIter es (reachUniv es a).card {a}
    rw [hm]
    exact heq
  have hgrow := @reachIter_growth α _ es ({a} : Finset α)
    ((reachUniv es a).card + 1) hall
  have hbound := Finset.card_le_card (reachIter_subset_univ hsingle ((reachUniv es a).card + 1))
  rw [Finset.card_singleton] at hgrow
  omega

theorem reachIter_sound {es : List (α × α)} {a : α} :
    ∀ n x, x ∈ reachIter es n {a} →
      Relation.ReflTransGen (fun u v => (u, v) ∈ es) a x := by
  intro n
  induction n with
  | zero =>
    intro x hx
    rw [reachIter, Finset.mem_singleton] at hx
    exact hx ▸ Relation.ReflTransGen.refl
  | succ n ih =>
    intro x hx
    rcases mem_reachStep.1 hx with hx | ⟨p, hp, hp1, rfl⟩
    · exact ih x hx
    · exact Relation.ReflTransGen.tail (ih p.1 hp1) hp

theorem mem_reachSet_self (es : List (α × α)) (a : α) : a ∈ reachSet es a :=
  subset_reachIter es _ {a} (Finset.mem_singleton_self a)

theorem reachSet_complete {es : List (α × α)} {a b : α}
    (h : Relation.ReflTransGen (fun u v => (u, v) ∈ es) a b) : b ∈ reachSet es a := by
  induction h with
  | refl => exact mem_reachSet_self es a
  | tail _ hstep ih =>
    have hmem : _ ∈ reachStep es (reachSet es a) :=
      mem_reachStep.2 (Or.inr ⟨_, hstep, ih, rfl⟩)
    rwa [reachStep_reachSet] at hmem

theorem reachableB_iff {es : List (α × α)} {a b : α} :
    reachableB es a b = true ↔ Relation.ReflTransGen (fun u v => (u, v) ∈ es) a b := by
  constructor
  · intro h
    exact reachIter_sound _ b (of_decide_eq_true h)
  · intro h
    exact decide_eq_true (reachSet_complete h)

end ReachabilityLemmas

section AcyclicityLemmas

variable {α : Type} [DecidableEq α]

theorem edgeRel_append {es : List (α × α)} {s t x y : α} :
    EdgeRel (es ++ [(s, t)]) x y ↔ EdgeRel es x y ∨ (x = s ∧ y = t) := by
  simp [EdgeRel, List.mem_append, Prod.ext_iff]

theorem reflTransGen_append_decompose {es : List (α × α)} {s t u v : α}
    (hns : ¬ Relation.ReflTransGen (EdgeRel es) t s)
    (h : Relation.ReflTransGen (EdgeRel (es ++ [(s, t)])) u v) :
    Relation.ReflTransGen (EdgeRel es) u v ∨
      (Relation.ReflTransGen (EdgeRel es) u s ∧ Relation.ReflTransGen (EdgeRel es) t v) := by
  induction h with
  | refl => exact Or.inl Relation.ReflTransGen.refl
  | tail _ hwv ih =>
    rcases edgeRel_append.1 hwv with hold | ⟨rfl, rfl⟩
    · rcases ih with ih | ⟨ih1, ih2⟩
      · exact Or.inl (ih.tail hold)
      · exact Or.inr ⟨ih1, ih2.tail hold⟩
    · rcases ih with ih | ⟨_, ih2⟩
      · exact Or.inr ⟨ih, Relation.ReflTransGen.refl⟩
      · exact absurd ih2 hns

theorem acyclicL_append {es : List (α × α)} {s t : α}
    (hac : AcyclicL es) (hns : ¬ Relation.ReflTransGen (EdgeRel es) t s) :
    AcyclicL (es ++ [(s, t)]) := by
  intro x hx
  rcases Relation.TransGen.head'_iff.1 hx with ⟨y, hxy, hyx⟩
  rcases edgeRel_append.1 hxy with hold | ⟨rfl, rfl⟩
  · rcases reflTransGen_append_decompose hns hyx with hyx | ⟨hys, htx⟩
    · exact hac x (Relation.TransGen.head' hold hyx)
    · exact hns ((htx.tail hold).trans hys)
  · rcases reflTransGen_append_decompose hns hyx with hts | ⟨hts, _⟩
    · exact hns hts
    · exact hns hts

theorem not_acyclicL_append_iff {es : List (α × α)} {s t : α} (hac : AcyclicL es) :
    ¬ AcyclicL (es ++ [(s, t)]) ↔ Relation.ReflTransGen (EdgeRel es) t s := by
  constructor
  · intro h
    by_contra hns
    exact h (acyclicL_append hac hns)
  · intro hts hac'
    apply hac' s
    refine Relation.TransGen.head' (edgeRel_append.2 (Or.inr ⟨rfl, rfl⟩)) ?_
    exact hts.mono fun a b hab => edgeRel_append.2 (Or.inl hab)

theorem acyclicL_nil : AcyclicL ([] : List (α × α)) := by
  intro x hx
  rcases Relation.TransGen.head'_iff.1 hx with ⟨y, hxy, _⟩
  exact absurd hxy (List.not_mem_nil (x, y))

theorem acyclicL_of_check {es : List (α × α)} (h : checkAcyclicB es = true) :
    AcyclicL es := by
  intro x hx
  rcases Relation.TransGen.head'_iff.1 hx with ⟨y, hxy, hyx⟩
  have hchk := List.all_eq_true.1 h (x, y) hxy
  rw [Bool.not_eq_true', ← Bool.not_eq_true] at hchk
  exact hchk (reachableB_iff.2 hyx)

end AcyclicityLemmas

section OpLemmas

theorem acyclicL_iff_of_mem_eq {α : Type} [DecidableEq α] {es es' : List (α × α)}
    (h : ∀ p, p ∈ es ↔ p ∈ es') : AcyclicL es ↔ AcyclicL es' := by
  constructor <;> intro hac x hx
  · exact hac x (hx.mono fun a b hab => (h (a, b)).2 hab)
  · exact hac x (hx.mono fun a b hab => (h (a, b)).1 hab)

theorem add_node_ok_elim {g : RenderGraph} {name : String} {n : RenderNode}
    {g' : RenderGraph} (h : add_node g name n = Except.ok g') :
    g' = { g with nodes := g.nodes ++ [(name, n)] } := by
  unfold add_node at h
  split at h
  · cases h
  · cases h
    rfl

theorem add_node_edge_ok_elim {g : RenderGraph} {s t : String} {g' : RenderGraph}
    (h : add_node_edge g s t = Except.ok g') :
    g' = g ∨
      (g' = { g with nodeEdges := g.nodeEdges ++ [(s, t)] } ∧
        reachableB (edgePairs g) t s = false) := by
  unfold add_node_edge at h
  split at h
  · cases h
  · split at h
    · cases h
    · split at h
      · cases h
      · split at h
        · cases h
          exact Or.inl rfl
        · split at h
          · cases h
          · cases h
            rename_i h1 h2 h3 h4 h5
            exact Or.inr ⟨rfl, by simpa using h5⟩

theorem add_slot_edge_ok_elim {g : RenderGraph} {s ss t ts : String} {g' : RenderGraph}
    (h : add_slot_edge g s ss t ts = Except.ok g') :
    ∃ tn tslot, get_node g t = some tn ∧ findSlot (nodeInputs tn) ts = some tslot ∧
      g' = { g with slotEdges :=
        g.slotEdges ++ [{ sourceNode := s, sourceSlot := ss,
                          targetNode := t, targetSlot := ts }] } ∧
      reachableB (edgePairs g) t s = false := by
  unfold add_slot_edge at h
  split at h
  · cases h
  · rename_i tn hget
    split at h
    · cases h
    · rename_i tslot hfind
      split at h
      · cases h
      · split at h
        · cases h
        · rename_i sn hsget
          split at h
          · cases h
          · split at h
            · cases h
            · split at h
              · cases h
              · cases h
                rename_i hkind hreach
                exact ⟨tn, tslot, hget, hfind, rfl, by simpa using hreach⟩

theorem applyOp_ok_acyclic {op : GraphOp} {g g' : RenderGraph}
    (hac : AcyclicL (edgePairs g)) (h : applyOp op g = Except.ok g') :
    AcyclicL (edgePairs g') := by
  cases op with
  | addNode name n =>
    have hg := add_node_ok_elim h
    subst hg
    exact hac
  | addNodeEdge s t =>
    rcases add_node_edge_ok_elim h with hg | ⟨hg, hreach⟩
    · subst hg; exact hac
    · subst hg
      have hns : ¬ Relation.ReflTransGen (EdgeRel (edgePairs g)) t s := by
        intro hr
        have := reachableB_iff.2 hr
        rw [hreach] at this
        cases this
      have hap := acyclicL_append hac hns
      have hmem : ∀ p : String × String,
          p ∈ edgePairs g ++ [(s, t)] ↔
            p ∈ edgePairs { g with nodeEdges := g.nodeEdges ++ [(s, t)] } := by
        intro p
        simp only [edgePairs, List.mem_append, List.mem_singleton]
        tauto
      exact (acyclicL_iff_of_mem_eq hmem).1 hap
  | addSlotEdge s ss t ts =>
    rcases add_slot_edge_ok_elim h with ⟨tn, tslot, _, _, hg, hreach⟩
    subst hg
    have hns : ¬ Relation.ReflTransGen (EdgeRel (edgePairs g)) t s := by
      intro hr
      have := reachableB_iff.2 hr
      rw [hreach] at this
      cases this
    have hap := acyclicL_append hac hns
    have hmem : ∀ p : String × String,
        p ∈ edgePairs g ++ [(s, t)] ↔
          p ∈ edgePairs { g with slotEdges :=
            g.slotEdges ++ [{ sourceNode := s, sourceSlot := ss,
                              targetNode := t, targetSlot := ts }] } := by
      intro p
      simp only [edgePairs, List.mem_append, List.mem_singleton, List.map_append,
        List.map_cons, List.map_nil]
      tauto
    exact (acyclicL_iff_of_mem_eq hmem).1 hap

theorem runOps_cons_ok {op : GraphOp} {rest : List GraphOp} {g g' : RenderGraph}
    (h : applyOp op g = Except.ok g') : runOps (op :: rest) g = runOps rest g' := by
  simp [runOps, h]

theorem runOps_cons_err_node {name : String} {n : RenderNode} {rest : List GraphOp}
    {g : RenderGraph} {e : GraphError}
    (h : applyOp (GraphOp.addNode name n) g = Except.error e) :
    runOps (GraphOp.addNode name n :: rest) g = runOps rest g := by
  simp [runOps, h]

theorem runOps_cons_err_edge {op : GraphOp} {rest : List GraphOp} {g : RenderGraph}
    {e : GraphError} (h : applyOp op g = Except.error e) (hop : op.isEdgeOp = true) :
    runOps (op :: rest) g = (g, some e) := by
  cases op with
  | addNode name n => cases hop
  | addNodeEdge s t => simp [runOps, h]
  | addSlotEdge s ss t ts => simp [runOps, h]

theorem runOps_acyclic : ∀ (ops : List GraphOp) (g : RenderGraph),
    AcyclicL (edgePairs g) → AcyclicL (edgePairs (runOps ops g).1) := by
  intro ops
  induction ops with
  | nil => intro g hac; exact hac
  | cons op rest ih =>
    intro g hac
    cases happ : applyOp op g with
    | ok g' =>
      rw [runOps_cons_ok happ]
      exact ih g' (applyOp_ok_acyclic hac happ)
    | error e =>
      cases op with
      | addNode name n =>
        rw [runOps_cons_err_node happ]
        exact ih g hac
      | addNodeEdge s t =>
        rw [runOps_cons_err_edge happ rfl]
        exact hac
      | addSlotEdge s ss t ts =>
        rw [runOps_cons_err_edge happ rfl]
        exact hac

theorem acyclicL_empty_graph : AcyclicL (edgePairs RenderGraph.empty) :=
  acyclicL_nil

end OpLemmas

section RunLemmas

theorem runOps_append_ok : ∀ (xs : List GraphOp) (g g' : RenderGraph),
    runOps xs g = (g', none) → ∀ ys, runOps (xs ++ ys) g = runOps ys g' := by
  intro xs
  induction xs with
  | nil =>
    intro g g' h ys
    have h1 : g = g' := congrArg Prod.fst h
    subst h1
    rfl
  | cons op rest ih =>
    intro g g' h ys
    cases happ : applyOp op g with
    | ok gm =>
      rw [runOps_cons_ok happ] at h
      rw [show (op :: rest) ++ ys = op :: (rest ++ ys) from rfl, runOps_cons_ok happ]
      exact ih gm g' h ys
    | error e =>
      cases op with
      | addNode name n =>
        rw [runOps_cons_err_node happ] at h
        rw [show (GraphOp.addNode name n :: rest) ++ ys =
          GraphOp.addNode name n :: (rest ++ ys) from rfl, runOps_cons_err_node happ]
        exact ih g g' h ys
      | addNodeEdge s t =>
        rw [runOps_cons_err_edge happ rfl] at h
        simp [Prod.ext_iff] at h
      | addSlotEdge s ss t ts =>
        rw [runOps_cons_err_edge happ rfl] at h
        simp [Prod.ext_iff] at h

theorem runOps_singleton_err_graph {op : GraphOp} {g : RenderGraph} {e : GraphError}
    (h : applyOp op g = Except.error e) : (runOps [op] g).1 = g := by
  cases op with
  | addNode name n => rw [runOps_cons_err_node h]; rfl
  | addNodeEdge s t => rw [runOps_cons_err_edge h rfl]
  | addSlotEdge s ss t ts => rw [runOps_cons_err_edge h rfl]

/-- A call rejected with an error leaves the graph exactly as it was:
running the failing call after any successfully completed sequence yields
the same graph state the sequence had produced. -/
theorem runOps_failed_call_unchanged {ops : List GraphOp} {op : GraphOp}
    {g g' : RenderGraph} {e : GraphError} (h : runOps ops g = (g', none))
    (happ : applyOp op g' = Except.error e) : (runOps (ops ++ [op]) g).1 = g' := by
  rw [runOps_append_ok ops g g' h [op]]
  exact runOps_singleton_err_graph happ

theorem runOps_error_iff : ∀ (ops : List GraphOp) (g : RenderGraph) (e : GraphError),
    (runOps ops g).2 = some e ↔
      ∃ pre op suf, ops = pre ++ op :: suf ∧ GraphOp.isEdgeOp op = true ∧
        (runOps pre g).2 = none ∧ applyOp op (runOps pre g).1 = Except.error e := by
  intro ops
  induction ops with
  | nil =>
    intro g e
    constructor
    · intro h
      cases h
    · rintro ⟨pre, op, suf, hsplit, -, -, -⟩
      cases pre <;> cases hsplit
  | cons op rest ih =>
    intro g e
    cases happ : applyOp op g with
    | ok g' =>
      rw [runOps_cons_ok happ]
      constructor
      · intro h
        rcases (ih g' e).1 h with ⟨pre, op', suf, hsplit, hedge, hrun, happly⟩
        refine ⟨op :: pre, op', suf, by rw [hsplit]; rfl, hedge, ?_, ?_⟩
        · rw [runOps_cons_ok happ]; exact hrun
        · rw [runOps_cons_ok happ]; exact happly
      · rintro ⟨pre, op', suf, hsplit, hedge, hrun, happly⟩
        cases pre with
        | nil =>
          obtain ⟨rfl, rfl⟩ := List.cons.inj hsplit
          rw [show runOps [] g = (g, none) from rfl] at happly
          rw [happ] at happly
          cases happly
        | cons q pre' =>
          obtain ⟨rfl, hrest⟩ := List.cons.inj hsplit
          rw [runOps_cons_ok happ] at hrun happly
          exact (ih g' e).2 ⟨pre', op', suf, hrest, hedge, hrun, happly⟩
    | error e' =>
      cases op with
      | addNode name n =>
        rw [runOps_cons_err_node happ]
        constructor
        · intro h
          rcases (ih g e).1 h with ⟨pre, op', suf, hsplit, hedge, hrun, happly⟩
          refine ⟨GraphOp.addNode name n :: pre, op', suf, by rw [hsplit]; rfl, hedge, ?_, ?_⟩
          · rw [runOps_cons_err_node happ]; exact hrun
          · rw [runOps_cons_err_node happ]; exact happly
        · rintro ⟨pre, op', suf, hsplit, hedge, hrun, happly⟩
          cases pre with
          | nil =>
            obtain ⟨rfl, rfl⟩ := List.cons.inj hsplit
            cases hedge
          | cons q pre' =>
            obtain ⟨rfl, hrest⟩ := List.cons.inj hsplit
            rw [runOps_cons_err_node happ] at hrun happly
            exact (ih g e).2 ⟨pre', op', suf, hrest, hedge, hrun, happly⟩
      | addNodeEdge s t =>
        rw [runOps_cons_err_edge happ rfl]
        constructor
        · intro h
          cases h
          exact ⟨[], GraphOp.addNodeEdge s t, rest, rfl, rfl, rfl, happ⟩
        · rintro ⟨pre, op', suf, hsplit, hedge, hrun, happly⟩
          cases pre with
          | nil =>
            obtain ⟨rfl, rfl⟩ := List.cons.inj hsplit
            rw [show runOps [] g = (g, none) from rfl] at happly
            rw [happ] at happly
            cases happly
            rfl
          | cons q pre' =>
            obtain ⟨rfl, hrest⟩ := List.cons.inj hsplit
            rw [runOps_cons_err_edge happ rfl] at hrun
            cases hrun
      | addSlotEdge s ss t ts =>
        rw [runOps_cons_err_edge happ rfl]
        constructor
        · intro h
          cases h
          exact ⟨[], GraphOp.addSlotEdge s ss t ts, rest, rfl, rfl, rfl, happ⟩
        · rintro ⟨pre, op', suf, hsplit, hedge, hrun, happly⟩
          cases pre with
          | nil =>
            obtain ⟨rfl, rfl⟩ := List.cons.inj hsplit
            rw [show runOps [] g = (g, none) from rfl] at happly
            rw [happ] at happly
            cases happly
            rfl
          | cons q pre' =>
            obtain ⟨rfl, hrest⟩ := List.cons.inj hsplit
            rw [runOps_cons_err_edge happ rfl] at hrun
            cases hrun

end RunLemmas

section CycleRejection

theorem bool_true_of_not_false {b : Bool} (h : ¬ b = false) : b = true := by
  cases b
  · exact absurd rfl h
  · rfl

theorem not_reach_of_reachableB_false {g : RenderGraph} {s t : String}
    (h : reachableB (edgePairs g) t s = false) :
    ¬ Relation.ReflTransGen (EdgeRel (edgePairs g)) t s := by
  intro hr
  rw [reachableB_iff.2 hr] at h
  cases h

theorem add_node_edge_wcc_iff {g : RenderGraph} {s t : String}
    (hac : AcyclicL (edgePairs g)) :
    add_node_edge g s t = Except.error (GraphError.WouldCreateCycle s t) ↔
      (hasNode g s = true ∧ hasNode g t = true ∧ (s, t) ∉ g.nodeEdges ∧
        (s, t) ∉ g.slotEdges.map (fun e => (e.sourceNode, e.targetNode)) ∧
        ¬ AcyclicL (edgePairs g ++ [(s, t)])) := by
  unfold add_node_edge
  split_ifs with h1 h2 h3 h4 h5
  · simp [h1]
  · simp [h2]
  · simp [h3]
  · constructor
    · intro h
      cases h
    · rintro ⟨-, -, -, hmap, -⟩
      exact absurd h4 hmap
  · have hs := bool_true_of_not_false h1
    have ht := bool_true_of_not_false h2
    have hcyc : ¬ AcyclicL (edgePairs g ++ [(s, t)]) :=
      (not_acyclicL_append_iff hac).2 (reachableB_iff.1 h5)
    exact iff_of_true rfl ⟨hs, ht, h3, h4, hcyc⟩
  · have hreach : reachableB (edgePairs g) t s = false := by
      cases hr : reachableB (edgePairs g) t s
      · rfl
      · exact absurd hr h5
    have hacyc : AcyclicL (edgePairs g ++ [(s, t)]) :=
      acyclicL_append hac (not_reach_of_reachableB_false hreach)
    constructor
    · intro h
      cases h
    · rintro ⟨-, -, -, -, hcyc⟩
      exact absurd hacyc hcyc

theorem add_slot_edge_wcc_iff {g : RenderGraph} {s ss t ts : String}
    (hac : AcyclicL (edgePairs g)) :
    add_slot_edge g s ss t ts = Except.error (GraphError.WouldCreateCycle s t) ↔
      ∃ tn tslot sn sslot,
        get_node g t = some tn ∧ findSlot (nodeInputs tn) ts = some tslot ∧
        (g.slotEdges.any fun e =>
          decide (e.targetNode = t) && decide (e.targetSlot = ts)) = false ∧
        get_node g s = some sn ∧ findSlot (nodeOutputs sn) ss = some sslot ∧
        sslot.kind = tslot.kind ∧
        ¬ AcyclicL (edgePairs g ++ [(s, t)]) := by
  unfold add_slot_edge
  split
  · rename_i hgt
    constructor
    · intro h
      cases h
    · rintro ⟨tn, -, -, -, htn, -⟩
      rw [hgt] at htn
      cases htn
  · rename_i tn hgt
    split
    · rename_i hft
      constructor
      · intro h
        cases h
      · rintro ⟨tn', tslot, -, -, htn, hts, -⟩
        rw [hgt] at htn
        cases htn
        rw [hft] at hts
        cases hts
    · rename_i tslot hft
      split_ifs with hb hreach
      · constructor
        · intro h
          cases h
        · rintro ⟨tn', tslot', -, -, -, -, hbound, -⟩
          rw [hb] at hbound
          cases hbound
      · have hbound : (g.slotEdges.any fun e =>
            decide (e.targetNode = t) && decide (e.targetSlot = ts)) = false := by
          cases hb' : g.slotEdges.any fun e =>
              decide (e.targetNode = t) && decide (e.targetSlot = ts)
          · rfl
          · exact absurd hb' hb
        have hcyc : ¬ AcyclicL (edgePairs g ++ [(s, t)]) :=
          (not_acyclicL_append_iff hac).2 (reachableB_iff.1 hreach)
        split
        · rename_i hgs
          constructor
          · intro h
            cases h
          · rintro ⟨-, -, sn, -, -, -, -, hsn, -⟩
            rw [hgs] at hsn
            cases hsn
        · rename_i sn hgs
          split
          · rename_i hfs
            constructor
            · intro h
              cases h
            · rintro ⟨-, -, sn', sslot, -, -, -, hsn, hss, -⟩
              rw [hgs] at hsn
              cases hsn
              rw [hfs] at hss
              cases hss
          · rename_i sslot hfs
            split_ifs with hkind
            · constructor
              · intro h
                cases h
              · rintro ⟨tn', tslot', sn', sslot', htn, hts, -, hsn, hss, hkeq, -⟩
                rw [hgt] at htn
                cases htn
                rw [hft] at hts
                cases hts
                rw [hgs] at hsn
                cases hsn
                rw [hfs] at hss
                cases hss
                exact absurd hkeq hkind
            · exact iff_of_true rfl
                ⟨tn, tslot, sn, sslot, hgt, hft, hbound, hgs, hfs, not_ne_iff.1 hkind, hcyc⟩
      · have hreach' : reachableB (edgePairs g) t s = false := by
          cases hr : reachableB (edgePairs g) t s
          · rfl
          · exact absurd hr hreach
        have hacyc : AcyclicL (edgePairs g ++ [(s, t)]) :=
          acyclicL_append hac (not_reach_of_reachableB_false hreach')
        constructor
        · intro h
          split at h
          · cases h
          · split at h
            · cases h
            · split_ifs at h
              cases h
        · rintro ⟨-, -, -, -, -, -, -, -, -, -, hcyc⟩
          exact absurd hacyc hcyc

end CycleRejection

section Claims

/-- C1: running `add_base_graph` with the default configuration (all six
switches true) on an empty graph yields exactly the seven nodes
texture_copy, camera3d, camera2d, shared_buffers, main_pass_depth_texture,
main_pass, swapchain (in registration order); the main pass has exactly two
incoming slot edges — its "color" input fed by the swap chain's "texture"
output and its "depth" input fed by the depth texture's "texture" output —
and exactly four explicit node-ordering predecessors, texture_copy,
shared_buffers, camera3d, camera2d; and no call fails. -/
theorem claim1_default_topology :
    ((add_base_graph BaseRenderGraphConfig.default RenderGraph.empty).1.nodes.map
        Prod.fst) =
      [node.TEXTURE_COPY, node.CAMERA3D, node.CAMERA2D, node.SHARED_BUFFERS,
       node.MAIN_DEPTH_TEXTURE, node.MAIN_PASS, node.PRIMARY_SWAP_CHAIN] ∧
    incomingSlotEdges (add_base_graph BaseRenderGraphConfig.default RenderGraph.empty).1
        node.MAIN_PASS =
      [{ sourceNode := node.PRIMARY_SWAP_CHAIN, sourceSlot := WindowSwapChainNode.OUT_TEXTURE,
         targetNode := node.MAIN_PASS, targetSlot := "color" },
       { sourceNode := node.MAIN_DEPTH_TEXTURE, sourceSlot := WindowTextureNode.OUT_TEXTURE,
         targetNode := node.MAIN_PASS, targetSlot := "depth" }] ∧
    explicitPreds (add_base_graph BaseRenderGraphConfig.default RenderGraph.empty).1
        node.MAIN_PASS =
      [node.TEXTURE_COPY, node.SHARED_BUFFERS, node.CAMERA3D, node.CAMERA2D] ∧
    (add_base_graph BaseRenderGraphConfig.default RenderGraph.empty).2 = none := by
  decide

/-- C2 counterexample: with `connect_main_pass_to_swapchain = true` but
`add_main_pass = false`, the slot-edge call targeting the absent main pass
fails, so its `.unwrap()` panics — refuting the claim that `add_base_graph`
completes successfully for every one of the 64 switch combinations. -/
theorem claim2_counterexample :
    (add_base_graph
        { add_2d_camera := true, add_3d_camera := true, add_main_depth_texture := true,
          add_main_pass := false, connect_main_pass_to_swapchain := true,
          connect_main_pass_to_main_depth_texture := true }
        RenderGraph.empty).2 =
      some (GraphError.NodeNotFound node.MAIN_PASS) := by
  decide

/-- C2 amended: `add_base_graph` on an empty graph completes without a
panic exactly when `connect_main_pass_to_swapchain` implies `add_main_pass`,
and `connect_main_pass_to_main_depth_texture` implies both `add_main_pass`
and `add_main_depth_texture`; in particular the degenerate
depth-texture-without-main-pass configuration (connect switches off)
succeeds. -/
theorem claim2_success_iff :
    ∀ b1 b2 b3 b4 b5 b6 : Bool,
      ((add_base_graph ⟨b1, b2, b3, b4, b5, b6⟩ RenderGraph.empty).2 = none ↔
        ((b5 = true → b4 = true) ∧ (b6 = true → b4 = true ∧ b3 = true))) := by
  decide

/-- C6: the default `BaseRenderGraphConfig` sets all six switches to true. -/
theorem claim6_default_config :
    BaseRenderGraphConfig.default.add_2d_camera = true ∧
    BaseRenderGraphConfig.default.add_3d_camera = true ∧
    BaseRenderGraphConfig.default.add_main_depth_texture = true ∧
    BaseRenderGraphConfig.default.add_main_pass = true ∧
    BaseRenderGraphConfig.default.connect_main_pass_to_swapchain = true ∧
    BaseRenderGraphConfig.default.connect_main_pass_to_main_depth_texture = true := by
  decide

/-- C8: whatever the six switches, the assembled graph contains the
texture_copy, shared_buffers and swapchain nodes — no switch can remove
them. -/
theorem claim8_unconditional_nodes :
    ∀ b1 b2 b3 b4 b5 b6 : Bool,
      hasNode (add_base_graph ⟨b1, b2, b3, b4, b5, b6⟩ RenderGraph.empty).1
          node.TEXTURE_COPY = true ∧
      hasNode (add_base_graph ⟨b1, b2, b3, b4, b5, b6⟩ RenderGraph.empty).1
          node.SHARED_BUFFERS = true ∧
      hasNode (add_base_graph ⟨b1, b2, b3, b4, b5, b6⟩ RenderGraph.empty).1
          node.PRIMARY_SWAP_CHAIN = true := by
  decide

/-- C9: for every configuration, the explicit node edges into the main pass
are exactly texture_copy, shared_buffers, then camera3d when `add_3d_camera`
is on, then camera2d when `add_2d_camera` is on — in that fixed order — when
`add_main_pass` is on, and there are none at all when it is off; and the
main pass node carries the 3D (resp. 2D) camera exactly when the
corresponding switch is on. -/
theorem claim9_camera_coupling :
    ∀ b1 b2 b3 b4 b5 b6 : Bool,
      explicitPreds (add_base_graph ⟨b1, b2, b3, b4, b5, b6⟩ RenderGraph.empty).1
          node.MAIN_PASS =
        (if b4 then [node.TEXTURE_COPY, node.SHARED_BUFFERS] ++
          (if b2 then [node.CAMERA3D] else []) ++ (if b1 then [node.CAMERA2D] else [])
         else []) ∧
      ((get_node (add_base_graph ⟨b1, b2, b3, b4, b5, b6⟩ RenderGraph.empty).1
          node.MAIN_PASS).bind passCameras) =
        (if b4 then some ((if b2 then [camera.CAMERA3D] else []) ++
          (if b1 then [camera.CAMERA2D] else [])) else none) := by
  decide

/-- C10: whenever `add_main_pass` is on, the main pass node stored in the
assembled graph carries exactly one color attachment reading input "color",
cleared to rgb(0.1, 0.1, 0.1) and stored, a depth-stencil attachment reading
input "depth", cleared to 1.0 and stored with no stencil operations, sample
count 1, and the default clear color registered for color attachment 0;
when `add_main_pass` is off there is no main pass node. -/
theorem claim10_pass_descriptor :
    ∀ b1 b2 b3 b4 b5 b6 : Bool,
      ((get_node (add_base_graph ⟨b1, b2, b3, b4, b5, b6⟩ RenderGraph.empty).1
          node.MAIN_PASS).bind passState) =
        (if b4 then some (expectedMainPassDescriptor, [0]) else none) := by
  decide

/-- C3 counterexample: on a graph that already contains a `texture_copy`
node, the assembler's very first graph-store call fails with
`DuplicateNodeName`, yet `add_base_graph` reports no error — the source
discards the results of its `add_node` calls, so not every Graph Store
error is returned to the caller. -/
theorem claim3_counterexample :
    (baseGraphOps BaseRenderGraphConfig.default).head? =
      some (GraphOp.addNode node.TEXTURE_COPY TextureCopyNode.default) ∧
    applyOp (GraphOp.addNode node.TEXTURE_COPY TextureCopyNode.default) preAddedGraph =
      Except.error (GraphError.DuplicateNodeName node.TEXTURE_COPY) ∧
    (add_base_graph BaseRenderGraphConfig.default preAddedGraph).2 = none := by
  refine ⟨by decide, rfl, by decide⟩

/-- C3 amended: `add_base_graph` reports an error exactly when one of its
unwrapped `add_node_edge`/`add_slot_edge` calls fails, and the reported
error is precisely the error of the first such failing call, unchanged (the
unwrap panic neither swallows nor substitutes it); the results of `add_node`
calls, however, are discarded. -/
theorem claim3_first_edge_error_propagated :
    ∀ (config : BaseRenderGraphConfig) (g : RenderGraph) (e : GraphError),
      (add_base_graph config g).2 = some e ↔
        ∃ pre op suf, baseGraphOps config = pre ++ op :: suf ∧
          GraphOp.isEdgeOp op = true ∧ (runOps pre g).2 = none ∧
          applyOp op (runOps pre g).1 = Except.error e :=
  fun config g e => runOps_error_iff (baseGraphOps config) g e

/-- C4: (1) after any sequence of `add_node`/`add_node_edge`/`add_slot_edge`
calls from the empty graph, the node-edge relation including the edges
induced by slot edges is acyclic; (2) an `add_node_edge` call is rejected
with `WouldCreateCycle` exactly when it passes every other validation and
accepting the edge would break acyclicity; (3) likewise for
`add_slot_edge`; (4) a call that fails leaves the graph exactly as the
preceding calls left it. -/
theorem claim4_dag_invariant :
    (∀ ops : List GraphOp, AcyclicL (edgePairs (runOps ops RenderGraph.empty).1)) ∧
    (∀ (g : RenderGraph) (s t : String), AcyclicL (edgePairs g) →
      (add_node_edge g s t = Except.error (GraphError.WouldCreateCycle s t) ↔
        (hasNode g s = true ∧ hasNode g t = true ∧ (s, t) ∉ g.nodeEdges ∧
          (s, t) ∉ g.slotEdges.map (fun e => (e.sourceNode, e.targetNode)) ∧
          ¬ AcyclicL (edgePairs g ++ [(s, t)])))) ∧
    (∀ (g : RenderGraph) (s ss t ts : String), AcyclicL (edgePairs g) →
      (add_slot_edge g s ss t ts = Except.error (GraphError.WouldCreateCycle s t) ↔
        ∃ tn tslot sn sslot,
          get_node g t = some tn ∧ findSlot (nodeInputs tn) ts = some tslot ∧
          (g.slotEdges.any fun e =>
            decide (e.targetNode = t) && decide (e.targetSlot = ts)) = false ∧
          get_node g s = some sn ∧ findSlot (nodeOutputs sn) ss = some sslot ∧
          sslot.kind = tslot.kind ∧
          ¬ AcyclicL (edgePairs g ++ [(s, t)]))) ∧
    (∀ (ops : List GraphOp) (op : GraphOp) (g g' : RenderGraph) (e : GraphError),
      runOps ops g = (g', none) → applyOp op g' = Except.error e →
        (runOps (ops ++ [op]) g).1 = g') :=
  ⟨fun ops => runOps_acyclic ops RenderGraph.empty acyclicL_empty_graph,
   fun _ _ _ hac => add_node_edge_wcc_iff hac,
   fun _ _ _ _ _ hac => add_slot_edge_wcc_iff hac,
   fun _ _ _ _ _ h1 h2 => runOps_failed_call_unchanged h1 h2⟩

/-- C4 witness: spec scenario 3 — on the acyclic chain a → b → c, the call
`add_node_edge(c, a)` is rejected with `WouldCreateCycle`; and the default
assembly run keeps the graph acyclic. -/
theorem claim4_witness :
    AcyclicL (edgePairs
      (runOps (baseGraphOps BaseRenderGraphConfig.default) RenderGraph.empty).1) ∧
    add_node_edge chainGraphABC "c" "a" =
      Except.error (GraphError.WouldCreateCycle "c" "a") := by
  have hac : AcyclicL (edgePairs chainGraphABC) := acyclicL_of_check (by decide)
  refine ⟨claim4_dag_invariant.1 (baseGraphOps BaseRenderGraphConfig.default), ?_⟩
  refine (claim4_dag_invariant.2.1 chainGraphABC "c" "a" hac).2
    ⟨by decide, by decide, by decide, by decide, ?_⟩
  refine (not_acyclicL_append_iff hac).2 ?_
  have hab : EdgeRel (edgePairs chainGraphABC) "a" "b" := by
    show ("a", "b") ∈ edgePairs chainGraphABC
    decide
  have hbc : EdgeRel (edgePairs chainGraphABC) "b" "c" := by
    show ("b", "c") ∈ edgePairs chainGraphABC
    decide
  exact Relation.ReflTransGen.tail (Relation.ReflTransGen.single hab) hbc

/-- C5 counterexample: the calls gated by `add_3d_camera` do not form one
fixed contiguous block inserted independently of the other switches — with
`add_main_pass` on, flipping `add_3d_camera` inserts two calls (the camera
registration and the camera3d → main_pass edge), but with `add_main_pass`
off it inserts only one, so no single block works for both. -/
theorem claim5_counterexample : ¬ gatesIndependentBlock setAdd3dCamera := by
  rintro ⟨block, h⟩
  obtain ⟨p1, q1, e1t, e1f⟩ := h ⟨false, false, false, true, false, false⟩
  obtain ⟨p2, q2, e2t, e2f⟩ := h ⟨false, false, false, false, false, false⟩
  have l1t := congrArg List.length e1t
  have l1f := congrArg List.length e1f
  have l2t := congrArg List.length e2t
  have l2f := congrArg List.length e2f
  have c1t : (baseGraphOps
      (setAdd3dCamera ⟨false, false, false, true, false, false⟩ true)).length = 8 := rfl
  have c1f : (baseGraphOps
      (setAdd3dCamera ⟨false, false, false, true, false, false⟩ false)).length = 6 := rfl
  have c2t : (baseGraphOps
      (setAdd3dCamera ⟨false, false, false, false, false, false⟩ true)).length = 4 := rfl
  have c2f : (baseGraphOps
      (setAdd3dCamera ⟨false, false, false, false, false, false⟩ false)).length = 3 := rfl
  rw [c1t] at l1t
  rw [c1f] at l1f
  rw [c2t] at l2t
  rw [c2f] at l2f
  simp only [List.length_append] at l1t l1f l2t l2f
  omega

set_option maxHeartbeats 3200000 in
/-- C5 amended: `add_main_depth_texture` and the two connect switches each
gate a single fixed contiguous block independently of the other switches;
`add_main_pass` gates a single contiguous block whose content depends on the
camera switches; each camera switch gates its registration call at one
position and additionally — only when `add_main_pass` is on — a
camera → main_pass ordering edge at a second position, besides changing the
payload of the main-pass `add_node` call. -/
theorem claim5_gating_structure :
    gatesIndependentBlock setAddMainDepthTexture ∧
    gatesIndependentBlock setConnectSwapchain ∧
    gatesIndependentBlock setConnectDepth ∧
    (∀ cfg : BaseRenderGraphConfig, ∃ pre post,
      baseGraphOps (setAddMainPass cfg true) =
        pre ++ mainPassBlock cfg.add_3d_camera cfg.add_2d_camera ++ post ∧
      baseGraphOps (setAddMainPass cfg false) = pre ++ post) ∧
    (∀ cfg : BaseRenderGraphConfig,
      baseGraphOps (setAdd3dCamera cfg true) =
        [tcOp] ++ [cam3Op] ++
          seg3dMid cfg.add_2d_camera cfg.add_main_depth_texture cfg.add_main_pass true ++
          (if cfg.add_main_pass then [eC3Mp] else []) ++
          seg3dTail cfg.add_2d_camera cfg.add_main_pass
            cfg.connect_main_pass_to_swapchain
            cfg.connect_main_pass_to_main_depth_texture ∧
      baseGraphOps (setAdd3dCamera cfg false) =
        [tcOp] ++
          seg3dMid cfg.add_2d_camera cfg.add_main_depth_texture cfg.add_main_pass false ++
          seg3dTail cfg.add_2d_camera cfg.add_main_pass
            cfg.connect_main_pass_to_swapchain
            cfg.connect_main_pass_to_main_depth_texture) ∧
    (∀ cfg : BaseRenderGraphConfig,
      baseGraphOps (setAdd2dCamera cfg true) =
        seg2dPre cfg.add_3d_camera ++ [cam2Op] ++
          seg2dMid cfg.add_3d_camera cfg.add_main_depth_texture cfg.add_main_pass true ++
          (if cfg.add_main_pass then [eC2Mp] else []) ++
          seg2dTail cfg.connect_main_pass_to_swapchain
            cfg.connect_main_pass_to_main_depth_texture ∧
      baseGraphOps (setAdd2dCamera cfg false) =
        seg2dPre cfg.add_3d_camera ++
          seg2dMid cfg.add_3d_camera cfg.add_main_depth_texture cfg.add_main_pass false ++
          seg2dTail cfg.connect_main_pass_to_swapchain
            cfg.connect_main_pass_to_main_depth_texture) := by
  refine ⟨⟨[mdtOp], fun cfg => ?_⟩, ⟨[slotColorOp], fun cfg => ?_⟩,
    ⟨[slotDepthOp], fun cfg => ?_⟩, fun cfg => ?_, fun cfg => ?_, fun cfg => ?_⟩
  · obtain ⟨c2, c3, dt, mp, cs, cd⟩ := cfg
    refine ⟨[tcOp] ++ (if c3 then [cam3Op] else []) ++ (if c2 then [cam2Op] else []) ++
      [sbOp],
      (if mp then [mpOp c3 c2, eTcMp, eSbMp] ++ (if c3 then [eC3Mp] else []) ++
        (if c2 then [eC2Mp] else []) else []) ++ [scOp] ++
        (if cs then [slotColorOp] else []) ++ (if cd then [slotDepthOp] else []), ?_, ?_⟩
    · cases c2 <;> cases c3 <;> cases mp <;> cases cs <;> cases cd <;> rfl
    · cases c2 <;> cases c3 <;> cases mp <;> cases cs <;> cases cd <;> rfl
  · obtain ⟨c2, c3, dt, mp, cs, cd⟩ := cfg
    refine ⟨[tcOp] ++ (if c3 then [cam3Op] else []) ++ (if c2 then [cam2Op] else []) ++
      [sbOp] ++ (if dt then [mdtOp] else []) ++
      (if mp then [mpOp c3 c2, eTcMp, eSbMp] ++ (if c3 then [eC3Mp] else []) ++
        (if c2 then [eC2Mp] else []) else []) ++ [scOp],
      (if cd then [slotDepthOp] else []), ?_, ?_⟩
    · cases c2 <;> cases c3 <;> cases dt <;> cases mp <;> cases cd <;> rfl
    · cases c2 <;> cases c3 <;> cases dt <;> cases mp <;> cases cd <;> rfl
  · obtain ⟨c2, c3, dt, mp, cs, cd⟩ := cfg
    refine ⟨[tcOp] ++ (if c3 then [cam3Op] else []) ++ (if c2 then [cam2Op] else []) ++
      [sbOp] ++ (if dt then [mdtOp] else []) ++
      (if mp then [mpOp c3 c2, eTcMp, eSbMp] ++ (if c3 then [eC3Mp] else []) ++
        (if c2 then [eC2Mp] else []) else []) ++ [scOp] ++
        (if cs then [slotColorOp] else []), [], ?_, ?_⟩
    · cases c2 <;> cases c3 <;> cases dt <;> cases mp <;> cases cs <;> rfl
    · cases c2 <;> cases c3 <;> cases dt <;> cases mp <;> cases cs <;> rfl
  · obtain ⟨c2, c3, dt, mp, cs, cd⟩ := cfg
    refine ⟨[tcOp] ++ (if c3 then [cam3Op] else []) ++ (if c2 then [cam2Op] else []) ++
      [sbOp] ++ (if dt then [mdtOp] else []),
      [scOp] ++ (if cs then [slotColorOp] else []) ++ (if cd then [slotDepthOp] else []),
      ?_, ?_⟩
    · cases c2 <;> cases c3 <;> cases dt <;> cases cs <;> cases cd <;> rfl
    · cases c2 <;> cases c3 <;> cases dt <;> cases cs <;> cases cd <;> rfl
  · obtain ⟨c2, c3, dt, mp, cs, cd⟩ := cfg
    refine ⟨?_, ?_⟩
    · cases c2 <;> cases dt <;> cases mp <;> cases cs <;> cases cd <;> rfl
    · cases c2 <;> cases dt <;> cases mp <;> cases cs <;> cases cd <;> rfl
  · obtain ⟨c2, c3, dt, mp, cs, cd⟩ := cfg
    refine ⟨?_, ?_⟩
    · cases c3 <;> cases dt <;> cases mp <;> cases cs <;> cases cd <;> rfl
    · cases c3 <;> cases dt <;> cases mp <;> cases cs <;> cases cd <;> rfl

theorem get_node_slotEdges_update (g : RenderGraph) (xs : List SlotEdgeRec)
    (name : String) : get_node { g with slotEdges := xs } name = get_node g name := rfl

/-- C7: once an `add_slot_edge` call binding a target input slot has
succeeded, any second `add_slot_edge` naming the same target node and target
slot fails with `SlotAlreadyBound`, whatever source node and source slot it
names (even nonexistent ones). -/
theorem claim7_slot_already_bound (g : RenderGraph) (s1 ss1 t ts s2 ss2 : String)
    (g' : RenderGraph) (h : add_slot_edge g s1 ss1 t ts = Except.ok g') :
    add_slot_edge g' s2 ss2 t ts = Except.error (GraphError.SlotAlreadyBound t ts) := by
  rcases add_slot_edge_ok_elim h with ⟨tn, tslot, hgt, hft, hg, -⟩
  subst hg
  have hbound : (({ g with slotEdges := g.slotEdges ++
      [{ sourceNode := s1, sourceSlot := ss1, targetNode := t, targetSlot := ts }] } :
      RenderGraph).slotEdges.any fun e =>
        decide (e.targetNode = t) && decide (e.targetSlot = ts)) = true := by
    apply List.any_eq_true.2
    refine ⟨_, List.mem_append_right _ (List.mem_singleton_self _), ?_⟩
    simp
  unfold add_slot_edge
  split
  · rename_i hgt2
    rw [get_node_slotEdges_update] at hgt2
    rw [hgt] at hgt2
    cases hgt2
  · rename_i tn2 hgt2
    rw [get_node_slotEdges_update, hgt] at hgt2
    injection hgt2 with htn
    subst htn
    split
    · rename_i hft2
      rw [hft] at hft2
      cases hft2
    · rename_i tslot2 hft2
      rw [if_pos hbound]

/-- C7 witness: spec scenario 1 — after binding the main pass "color" input
to the swap chain's "texture" output, a second binding attempt naming a
nonexistent source still fails with `SlotAlreadyBound`. -/
theorem claim7_witness :
    add_slot_edge scenario1Bound "nonexistent_node" "nonexistent_slot"
      node.MAIN_PASS "color" =
      Except.error (GraphError.SlotAlreadyBound node.MAIN_PASS "color") :=
  claim7_slot_already_bound scenario1Graph node.PRIMARY_SWAP_CHAIN
    WindowSwapChainNode.OUT_TEXTURE node.MAIN_PASS "color" "nonexistent_node"
    "nonexistent_slot" scenario1Bound rfl

end Claims
